import Mathlib

/-!
Shallow embedding of the order-processing pipeline of the repository
(`src/functions/processOrder.ts`, `src/utils/retry.ts`, `src/utils/errors.ts`,
`src/schema/order.schema.ts`, `src/services/storageService.ts`,
`src/services/messagingService.ts`).

External collaborators (the Azure SDK clients, the zod datetime grammar, the
JS clock and the uuid generator) are modelled as explicit inputs in an
environment record: each SDK call site becomes a per-attempt success flag or
an optional thrown error, each clock read becomes an integer timestamp, and
the generated uuid becomes a string.  Everything the repository itself
computes (control flow, retry loop, error wrapping, response shaping) is
translated directly from the TypeScript source.
-/

/-! ## Retry engine (`src/utils/retry.ts`) -/

/-- `RetryOptions` from `src/utils/retry.ts`.  Delays are in milliseconds. -/
structure RetryOptions where
  maxAttempts : Nat
  baseDelay : Nat
  maxDelay : Nat
  backoffMultiplier : Nat
deriving Repr, DecidableEq

/-- `DEFAULT_RETRY_OPTIONS` from `src/utils/retry.ts`. -/
def DEFAULT_RETRY_OPTIONS : RetryOptions :=
  ⟨3, 1000, 10000, 2⟩

/-- The `options: Partial<RetryOptions>` argument of `withRetry`: each field is
optionally overridden. -/
structure RetryOverrides where
  maxAttempts : Option Nat
  baseDelay : Option Nat
  maxDelay : Option Nat
  backoffMultiplier : Option Nat
deriving Repr, DecidableEq

/-- The spread `{ ...DEFAULT_RETRY_OPTIONS, ...options }` in `withRetry`. -/
def mergeRetryOptions (o : RetryOverrides) : RetryOptions :=
  ⟨o.maxAttempts.getD DEFAULT_RETRY_OPTIONS.maxAttempts,
   o.baseDelay.getD DEFAULT_RETRY_OPTIONS.baseDelay,
   o.maxDelay.getD DEFAULT_RETRY_OPTIONS.maxDelay,
   o.backoffMultiplier.getD DEFAULT_RETRY_OPTIONS.backoffMultiplier⟩

/-- Passing `{}` for the options argument: nothing overridden. -/
def noOverrides : RetryOverrides :=
  ⟨none, none, none, none⟩

/-- `{ maxAttempts: 2 }`, used for `storageService.initializeContainer`. -/
def twoAttempts : RetryOverrides :=
  ⟨some 2, none, none, none⟩

/-- `{ maxAttempts: 3 }`, used for `storeOrder` and `sendOrderMessage`. -/
def threeAttempts : RetryOverrides :=
  ⟨some 3, none, none, none⟩

/-- Observable outcome of one `withRetry` call: the terminal result, how many
times the wrapped operation was invoked, and the list of inter-attempt sleep
durations (in order). -/
structure RetryRun (ε α : Type) where
  result : Except ε α
  calls : Nat
  delays : List Nat

/-- Whether an `Except` value is an error (a thrown JS value). -/
def exceptIsError {ε α : Type} : Except ε α → Bool
  | .error _ => true
  | .ok _ => false

/-- The `for (let attempt = 1; attempt <= config.maxAttempts; attempt++)` loop
of `withRetry`.  `remaining` counts the loop iterations still allowed, so the
loop guard `attempt <= maxAttempts` is `remaining > 0` and the source test
`attempt === config.maxAttempts` is `remaining = 1` (written `r = 0` after
pattern-matching `remaining = r + 1`).  The `remaining = 0` fall-through is the
final `throw lastError!` of the source, which throws the JS value `undefined`
when the loop body never ran; `default` stands for that value. -/
def retryGo {ε α : Type} [Inhabited ε] (op : Nat → Except ε α) (cfg : RetryOptions) :
    Nat → Nat → RetryRun ε α
  | _, 0 => ⟨.error default, 0, []⟩
  | attempt, r + 1 =>
    match op attempt with
    | .ok a => ⟨.ok a, 1, []⟩
    | .error e =>
      if r = 0 then ⟨.error e, 1, []⟩
      else
        let delay := min (cfg.baseDelay * cfg.backoffMultiplier ^ (attempt - 1)) cfg.maxDelay
        let rest := retryGo op cfg (attempt + 1) r
        ⟨rest.result, rest.calls + 1, delay :: rest.delays⟩

/-- `withRetry` from `src/utils/retry.ts`.  The wrapped operation is modelled
as a function from the (1-based) attempt number to that attempt's outcome. -/
def withRetry {ε α : Type} [Inhabited ε] (op : Nat → Except ε α)
    (options : RetryOverrides) : RetryRun ε α :=
  let config := mergeRetryOptions options
  retryGo op config 1 config.maxAttempts

/-! ## Data model (`src/types/Order.ts`) -/

/-- The `status` union type of `Order`. -/
inductive OrderStatus where
  | PENDING
  | APPROVED
  | REJECTED
deriving Repr, DecidableEq

/-- `Order` from `src/types/Order.ts`.  JS `Date` values are epoch
milliseconds; the JS `number` price is modelled as a rational. -/
structure Order where
  id : String
  employeeId : String
  bikeModel : String
  startDate : Int
  endDate : Int
  status : OrderStatus
  price : Rat
  currency : String
  companyId : String
  createdAt : Int
  updatedAt : Int
deriving Repr, DecidableEq

/-- `CreateOrderRequest` from `src/types/Order.ts`: the shape of a payload
whose fields are all present with the right primitive types (string dates
still unchecked). -/
structure CreateOrderRequest where
  employeeId : String
  bikeModel : String
  startDate : String
  endDate : String
  price : Rat
  currency : String
  companyId : String
deriving Repr, DecidableEq

/-- The string-valued fields of the input payload, used to compare the
generated identifier against every input field. -/
def stringFields (p : CreateOrderRequest) : List String :=
  [p.employeeId, p.bikeModel, p.startDate, p.endDate, p.currency, p.companyId]

/-! ## Schema (`src/schema/order.schema.ts`) -/

/-- The per-field issues collected by the zod object schema
`CreateOrderSchema`, in field declaration order, each formatted as
`path: message` exactly as `validateInput` renders them.  `isDatetime` is the
acceptance predicate of `z.string().datetime()` (an external zod detail). -/
def fieldIssues (isDatetime : String → Bool) (p : CreateOrderRequest) : List String :=
  (if 1 ≤ p.employeeId.length then [] else ["employeeId: Employee ID is required"]) ++
  (if 1 ≤ p.bikeModel.length then [] else ["bikeModel: Bike model is required"]) ++
  (if isDatetime p.startDate then [] else ["startDate: Invalid start date format"]) ++
  (if isDatetime p.endDate then [] else ["endDate: Invalid end date format"]) ++
  (if 0 < p.price then [] else ["price: Price must be positive"]) ++
  (if p.currency.length = 3 then [] else ["currency: Currency must be 3 characters"]) ++
  (if 1 ≤ p.companyId.length then [] else ["companyId: Company ID is required"])

/-- `CreateOrderSchema.safeParse`: the base object schema runs first; the
`.refine` cross-field check (`new Date(endDate) > new Date(startDate)`) runs
only when every field check passed, and contributes the issue
`endDate: End date must be after start date`.  `dateVal` is
`new Date(s).getTime()` (an external JS detail). -/
def CreateOrderSchema.safeParse (isDatetime : String → Bool) (dateVal : String → Int)
    (p : CreateOrderRequest) : Except (List String) CreateOrderRequest :=
  let issues := fieldIssues isDatetime p
  if issues.isEmpty then
    if dateVal p.startDate < dateVal p.endDate then .ok p
    else .error ["endDate: End date must be after start date"]
  else .error issues

/-! ## Errors (`src/utils/errors.ts`) -/

/-- The JS values thrown inside the pipeline: `ValidationError` (always
`statusCode = 400`), `OrderProcessingError` (message, code, statusCode), and
any other thrown value (SDK errors, `undefined`), of which only an internal
description is kept. -/
inductive PipeError where
  | validation (message : String) (validationErrors : List String)
  | processing (message : String) (code : String) (statusCode : Nat)
  | other (message : String)
deriving Repr, DecidableEq

instance : Inhabited PipeError :=
  ⟨.other ("undefined")⟩

/-- The caller-visible HTTP response: status plus the fields of the JSON
body.  Fields absent from the body are `none`. -/
structure HttpResponse where
  status : Nat
  success : Bool
  message : String
  errors : Option (List String)
  code : Option String
  orderId : Option String
deriving Repr, DecidableEq

/-- `handleError` from `src/utils/errors.ts`: the `instanceof ValidationError`
branch (status, message, errors), the `instanceof OrderProcessingError` branch
(status, message, code) and the fall-through branch (500, fixed message). -/
def handleError : PipeError → HttpResponse
  | .validation msg errs => ⟨400, false, msg, some errs, none, none⟩
  | .processing msg code statusCode => ⟨statusCode, false, msg, none, some code, none⟩
  | .other _ => ⟨500, false, "Internal server error", none, none, none⟩

/-! ## Services (`src/services/storageService.ts`, `src/services/messagingService.ts`) -/

/-- `StorageService.initializeContainer`: the SDK call
`containerClient.createIfNotExists()` succeeds or throws per attempt
(`createOk`); a throw is wrapped into `STORAGE_INIT_ERROR`. -/
def StorageService.initializeContainer (createOk : Nat → Bool) (attempt : Nat) :
    Except PipeError Unit :=
  if createOk attempt then .ok ()
  else .error (.processing ("Failed to initialize storage container") ("STORAGE_INIT_ERROR") 500)

/-- `StorageService.storeOrder`: the SDK call `blockBlobClient.upload(...)`
succeeds or throws per attempt (`uploadOk`); a throw is wrapped into
`STORAGE_ERROR`. -/
def StorageService.storeOrder (uploadOk : Nat → Bool) (attempt : Nat) :
    Except PipeError Unit :=
  if uploadOk attempt then .ok ()
  else .error (.processing ("Failed to store order in storage") ("STORAGE_ERROR") 500)

/-- `MessagingService.sendOrderMessage`: the SDK call
`sender.sendMessages(message)` succeeds or throws per attempt (`sendOk`); a
throw is wrapped into `MESSAGING_ERROR`. -/
def MessagingService.sendOrderMessage (sendOk : Nat → Bool) (attempt : Nat) :
    Except PipeError Unit :=
  if sendOk attempt then .ok ()
  else .error (.processing ("Failed to send order message") ("MESSAGING_ERROR") 500)

/-! ## Pipeline (`src/functions/processOrder.ts`) -/

/-- One request's external environment: everything the pipeline observes from
outside the repository's own code. -/
structure Env where
  /-- Outcome of `await request.json()`: a throw, a falsy body (`null`), or a
  payload with all fields present and correctly typed. -/
  reqBody : Except Unit (Option CreateOrderRequest)
  /-- Acceptance of `z.string().datetime()` (zod, external). -/
  isDatetime : String → Bool
  /-- `new Date(s).getTime()` (JS, external). -/
  dateVal : String → Int
  /-- The value produced by `uuidv4()` for this request. -/
  uuid : String
  /-- First `new Date()` in `createOrder` (assigned to `createdAt`). -/
  now1 : Int
  /-- Second `new Date()` in `createOrder` (assigned to `updatedAt`). -/
  now2 : Int
  /-- `BlobServiceClient.fromConnectionString` throw: `some msg` when the
  storage connection configuration is absent or malformed, `none` otherwise.
  The thrown value is a plain SDK `Error`, not an `OrderProcessingError`. -/
  storageCtorFail : Option String
  /-- `new ServiceBusClient(connectionString)` throw, as above. -/
  messagingCtorFail : Option String
  /-- Per-attempt success of `containerClient.createIfNotExists()`. -/
  initOk : Nat → Bool
  /-- Per-attempt success of `blockBlobClient.upload(...)`. -/
  storeOk : Nat → Bool
  /-- Per-attempt success of `sender.sendMessages(message)`. -/
  sendOk : Nat → Bool
  /-- `messagingService.close()` throw: `some msg` when the SDK close call
  throws, `none` when it succeeds. -/
  closeFail : Option String
  /-- `process.env.SKIP_SERVICE_BUS` as a boolean.  The repository's
  documentation and integration test use it, and `processOrder` is where it
  would have to be consulted. -/
  skipServiceBus : Bool

/-- Side-effect trace of one request: gateway call counts, `close()` call
count, and the records durably present in blob storage when the response is
returned (the code never deletes or rewrites a stored blob). -/
structure Trace where
  initCalls : Nat
  storeCalls : Nat
  sendCalls : Nat
  closeCalls : Nat
  stored : List Order
deriving Repr, DecidableEq

/-- The response together with the request's side-effect trace. -/
structure PipeResult where
  response : HttpResponse
  trace : Trace
deriving Repr, DecidableEq

/-- `parseRequestBody` from `src/functions/processOrder.ts`: a `json()` throw
becomes `Invalid JSON in request body`; a falsy body becomes
`Request body is required` (rethrown past the catch, which rethrows
`ValidationError` unchanged). -/
def parseRequestBody (reqBody : Except Unit (Option CreateOrderRequest)) :
    Except PipeError CreateOrderRequest :=
  match reqBody with
  | .error _ =>
    .error (.validation ("Invalid JSON in request body") (["Request body must be valid JSON"]))
  | .ok none =>
    .error (.validation ("Request body is required") (["Request body cannot be empty"]))
  | .ok (some b) => .ok b

/-- `validateInput` from `src/functions/processOrder.ts`: a failed
`safeParse` becomes `ValidationError("Validation failed", issues)`. -/
def validateInput (isDatetime : String → Bool) (dateVal : String → Int)
    (input : CreateOrderRequest) : Except PipeError CreateOrderRequest :=
  match CreateOrderSchema.safeParse isDatetime dateVal input with
  | .ok d => .ok d
  | .error errs => .error (.validation ("Validation failed") errs)

/-- `createOrder` from `src/functions/processOrder.ts`.  Note the source calls
`new Date()` twice: once for `createdAt` (`now1`) and once for `updatedAt`
(`now2`). -/
def createOrder (dateVal : String → Int) (uuid : String) (now1 now2 : Int)
    (input : CreateOrderRequest) : Order :=
  ⟨uuid, input.employeeId, input.bikeModel,
   dateVal input.startDate, dateVal input.endDate,
   .PENDING, input.price, input.currency, input.companyId, now1, now2⟩

/-- The body of the inner `try` of `processOrder`: initialize the container
(retry, 2 attempts), store the order (retry, 3 attempts), send the message
(retry, 3 attempts), then build the 201 result.  Returns the block's outcome
(a response or the thrown error) plus the trace accumulated inside the block
(`closeCalls` is still 0 here; the `finally` runs in `processOrder`). -/
def runGatewayStages (env : Env) (order : Order) : Except PipeError HttpResponse × Trace :=
  let initRun := withRetry (StorageService.initializeContainer env.initOk) twoAttempts
  match initRun.result with
  | .error e => (.error e, ⟨initRun.calls, 0, 0, 0, []⟩)
  | .ok _ =>
    let storeRun := withRetry (StorageService.storeOrder env.storeOk) threeAttempts
    match storeRun.result with
    | .error e => (.error e, ⟨initRun.calls, storeRun.calls, 0, 0, []⟩)
    | .ok _ =>
      let sendRun := withRetry (MessagingService.sendOrderMessage env.sendOk) threeAttempts
      match sendRun.result with
      | .error e => (.error e, ⟨initRun.calls, storeRun.calls, sendRun.calls, 0, [order]⟩)
      | .ok _ =>
        (.ok ⟨201, true, "Order processed successfully", none, none, some order.id⟩,
         ⟨initRun.calls, storeRun.calls, sendRun.calls, 0, [order]⟩)

/-- `processOrder` from `src/functions/processOrder.ts`.  Ordering mirrors the
source: parse, validate, `createOrder`, construct `StorageService`, construct
`MessagingService`, then the inner `try`/`finally` around the gateway stages
(the `finally` awaits `messagingService.close()`, whose own throw would
replace the pending outcome), and the outer `catch` maps any thrown error
through `handleError`.  `env.skipServiceBus` is never consulted: the source
contains no reference to `SKIP_SERVICE_BUS`. -/
def processOrder (env : Env) : PipeResult :=
  match parseRequestBody env.reqBody with
  | .error e => ⟨handleError e, ⟨0, 0, 0, 0, []⟩⟩
  | .ok requestBody =>
    match validateInput env.isDatetime env.dateVal requestBody with
    | .error e => ⟨handleError e, ⟨0, 0, 0, 0, []⟩⟩
    | .ok validatedInput =>
      let order := createOrder env.dateVal env.uuid env.now1 env.now2 validatedInput
      match env.storageCtorFail with
      | some msg => ⟨handleError (.other msg), ⟨0, 0, 0, 0, []⟩⟩
      | none =>
        match env.messagingCtorFail with
        | some msg => ⟨handleError (.other msg), ⟨0, 0, 0, 0, []⟩⟩
        | none =>
          let staged := runGatewayStages env order
          let t : Trace :=
            ⟨staged.2.initCalls, staged.2.storeCalls, staged.2.sendCalls,
             staged.2.closeCalls + 1, staged.2.stored⟩
          match env.closeFail with
          | some cmsg => ⟨handleError (.other cmsg), t⟩
          | none =>
            match staged.1 with
            | .ok resp => ⟨resp, t⟩
            | .error e => ⟨handleError e, t⟩

/-- Whether the request gets as far as constructing both gateway clients:
parsing and validation succeed and neither SDK constructor throws.  This is
exactly the condition under which the inner `try`/`finally` is entered. -/
def reachesServices (env : Env) : Bool :=
  match parseRequestBody env.reqBody with
  | .error _ => false
  | .ok requestBody =>
    match validateInput env.isDatetime env.dateVal requestBody with
    | .error _ => false
    | .ok _ => env.storageCtorFail.isNone && env.messagingCtorFail.isNone

/-! ## Concrete sample data for witnesses and counterexamples -/

/-- A valid sample payload (Scenario A of the source documentation). -/
def samplePayload : CreateOrderRequest :=
  ⟨"e1", "M", "2024-01-01T00:00:00Z", "2024-01-02T00:00:00Z", 10, "USD", "c1"⟩

/-- A concrete `getTime` model for the two sample datetime strings. -/
def sampleDateVal : String → Int :=
  fun s => if s = "2024-01-01T00:00:00Z" then 1704067200000 else 1704153600000

/-- An environment in which everything succeeds on the first attempt. -/
def healthyEnv : Env :=
  ⟨.ok (some samplePayload), fun _ => true, sampleDateVal,
   "9f8b7c6d-1a2b-4c3d-8e9f-000000000001", 1704100000000, 1704100000000,
   none, none, fun _ => true, fun _ => true, fun _ => true, none, false⟩

/-- A request whose payload cannot be parsed as JSON. -/
def malformedEnv : Env :=
  { healthyEnv with reqBody := .error () }

/-- A request processed with a missing storage connection configuration: the
blob SDK constructor throws a plain error before any gateway attempt. -/
def missingStorageEnv : Env :=
  { healthyEnv with storageCtorFail := some ("Invalid connection string") }

/-- An operation that fails on every attempt, throwing the attempt number. -/
def alwaysFailOp : Nat → Except Nat Unit :=
  fun k => .error k

/-- Environment in which every Service Bus send attempt throws. -/
def sendFailEnv : Env :=
  { healthyEnv with sendOk := fun _ => false }

/-- Environment in which every blob upload attempt throws. -/
def storeFailEnv : Env :=
  { healthyEnv with storeOk := fun _ => false }

/-- Environment with the bypass flag set and the Service Bus unavailable. -/
def skipFlagEnv : Env :=
  { healthyEnv with sendOk := fun _ => false, skipServiceBus := true }

/-- A payload whose fields are individually valid but whose end date is not
after its start date. -/
def backwardsPayload : CreateOrderRequest :=
  ⟨"e1", "M", "2024-01-02T00:00:00Z", "2024-01-01T00:00:00Z", 10, "USD", "c1"⟩

/-- Request carrying `backwardsPayload`. -/
def backwardsEnv : Env :=
  { healthyEnv with reqBody := .ok (some backwardsPayload) }

/-! ## Helper lemmas -/

/-- Unfolding equation: no iterations remaining. -/
theorem retryGo_zero {ε α : Type} [Inhabited ε] (op : Nat → Except ε α)
    (cfg : RetryOptions) (attempt : Nat) :
    retryGo op cfg attempt 0 = ⟨.error default, 0, []⟩ :=
  rfl

/-- One-step unfolding equation of the retry loop. -/
theorem retryGo_succ {ε α : Type} [Inhabited ε] (op : Nat → Except ε α)
    (cfg : RetryOptions) (attempt r : Nat) :
    retryGo op cfg attempt (r + 1) =
      match op attempt with
      | .ok a => ⟨.ok a, 1, []⟩
      | .error e =>
        if r = 0 then ⟨.error e, 1, []⟩
        else
          ⟨(retryGo op cfg (attempt + 1) r).result,
           (retryGo op cfg (attempt + 1) r).calls + 1,
           min (cfg.baseDelay * cfg.backoffMultiplier ^ (attempt - 1)) cfg.maxDelay ::
             (retryGo op cfg (attempt + 1) r).delays⟩ :=
  rfl

/-- Unfolding equation when the current attempt succeeds. -/
theorem retryGo_succ_ok {ε α : Type} [Inhabited ε] {op : Nat → Except ε α}
    (cfg : RetryOptions) {attempt : Nat} (r : Nat) {a : α}
    (h : op attempt = .ok a) :
    retryGo op cfg attempt (r + 1) = ⟨.ok a, 1, []⟩ := by
  rw [retryGo_succ, h]

/-- Unfolding equation when the current attempt fails. -/
theorem retryGo_succ_error {ε α : Type} [Inhabited ε] {op : Nat → Except ε α}
    (cfg : RetryOptions) {attempt : Nat} (r : Nat) {e : ε}
    (h : op attempt = .error e) :
    retryGo op cfg attempt (r + 1) =
      if r = 0 then ⟨.error e, 1, []⟩
      else
        ⟨(retryGo op cfg (attempt + 1) r).result,
         (retryGo op cfg (attempt + 1) r).calls + 1,
         min (cfg.baseDelay * cfg.backoffMultiplier ^ (attempt - 1)) cfg.maxDelay ::
           (retryGo op cfg (attempt + 1) r).delays⟩ := by
  rw [retryGo_succ, h]

/-- If every attempt from `attempt` through `attempt + r - 1` fails, the retry
loop runs all `r` remaining iterations and terminates with the outcome of the
last attempt, unchanged. -/
theorem retryGo_allFail {ε α : Type} [Inhabited ε] (op : Nat → Except ε α)
    (cfg : RetryOptions) :
    ∀ (r attempt : Nat), 1 ≤ r →
      (∀ j, attempt ≤ j → j < attempt + r → exceptIsError (op j) = true) →
      (retryGo op cfg attempt r).result = op (attempt + r - 1) ∧
      (retryGo op cfg attempt r).calls = r := by
  intro r
  induction r with
  | zero => intro attempt h1 _; omega
  | succ n ih =>
    intro attempt _ hfail
    have hthis : exceptIsError (op attempt) = true :=
      hfail attempt (Nat.le_refl _) (by omega)
    cases hop : op attempt with
    | ok a => rw [hop] at hthis; simp [exceptIsError] at hthis
    | error e =>
      rw [retryGo_succ_error cfg n hop]
      cases n with
      | zero =>
        rw [if_pos rfl]
        have hix : attempt + (0 + 1) - 1 = attempt := by omega
        exact ⟨by rw [hix, hop], rfl⟩
      | succ m =>
        have hrec := ih (attempt + 1) (by omega)
          (fun j hj1 hj2 => hfail j (by omega) (by omega))
        rw [if_neg (Nat.succ_ne_zero m)]
        refine ⟨?_, ?_⟩
        · show (retryGo op cfg (attempt + 1) (m + 1)).result = op (attempt + (m + 1 + 1) - 1)
          rw [hrec.1]
          congr 1
          omega
        · show (retryGo op cfg (attempt + 1) (m + 1)).calls + 1 = m + 1 + 1
          rw [hrec.2]

/-- If the attempts from `attempt` through `k` all fail and attempt `k` is not
the final one, the sleep recorded after attempt `k` (position `k - attempt` of
the delay list) is `min (baseDelay * backoffMultiplier ^ (k - 1)) maxDelay`. -/
theorem retryGo_delayAt {ε α : Type} [Inhabited ε] (op : Nat → Except ε α)
    (cfg : RetryOptions) :
    ∀ (r attempt k : Nat), attempt ≤ k → k + 1 < attempt + r →
      (∀ j, attempt ≤ j → j ≤ k → exceptIsError (op j) = true) →
      (retryGo op cfg attempt r).delays[k - attempt]? =
        some (min (cfg.baseDelay * cfg.backoffMultiplier ^ (k - 1)) cfg.maxDelay) := by
  intro r
  induction r with
  | zero => intro attempt k h1 h2 _; omega
  | succ n ih =>
    intro attempt k hak hklt hfail
    have hthis : exceptIsError (op attempt) = true :=
      hfail attempt (Nat.le_refl _) hak
    cases hop : op attempt with
    | ok a => rw [hop] at hthis; simp [exceptIsError] at hthis
    | error e =>
      rw [retryGo_succ_error cfg n hop]
      cases n with
      | zero => omega
      | succ m =>
        rw [if_neg (Nat.succ_ne_zero m)]
        rcases Nat.eq_or_lt_of_le hak with heq | hlt
        · show ((min (cfg.baseDelay * cfg.backoffMultiplier ^ (attempt - 1)) cfg.maxDelay) ::
              (retryGo op cfg (attempt + 1) (m + 1)).delays)[k - attempt]? = _
          rw [← heq, Nat.sub_self]
          rw [List.getElem?_cons_zero]
        · show ((min (cfg.baseDelay * cfg.backoffMultiplier ^ (attempt - 1)) cfg.maxDelay) ::
              (retryGo op cfg (attempt + 1) (m + 1)).delays)[k - attempt]? = _
          have hsub : k - attempt = (k - (attempt + 1)) + 1 := by omega
          rw [hsub]
          rw [List.getElem?_cons_succ]
          exact ih (attempt + 1) k (by omega) (by omega)
            (fun j hj1 hj2 => hfail j (by omega) hj2)

/-- `withRetry` at an operation whose first attempt succeeds. -/
theorem withRetry_firstOk {ε α : Type} [Inhabited ε] {op : Nat → Except ε α}
    {a : α} (o : RetryOverrides) (h : op 1 = .ok a)
    (hmax : 1 ≤ (mergeRetryOptions o).maxAttempts) :
    withRetry op o = ⟨.ok a, 1, []⟩ := by
  simp only [withRetry]
  obtain ⟨r, hr⟩ : ∃ r, (mergeRetryOptions o).maxAttempts = r + 1 :=
    ⟨(mergeRetryOptions o).maxAttempts - 1, by omega⟩
  rw [hr, retryGo_succ_ok _ r h]

/-- Validation succeeds exactly when every field check passes and the end date
is strictly after the start date. -/
theorem validateInput_ok {isDatetime : String → Bool} {dateVal : String → Int}
    {p : CreateOrderRequest}
    (hfields : fieldIssues isDatetime p = [])
    (hdates : dateVal p.startDate < dateVal p.endDate) :
    validateInput isDatetime dateVal p = .ok p := by
  unfold validateInput CreateOrderSchema.safeParse
  rw [hfields]
  simp [hdates]

/-- Validation with individually valid fields but `endDate ≤ startDate` fails
with exactly the refine issue. -/
theorem validateInput_dateOrder {isDatetime : String → Bool} {dateVal : String → Int}
    {p : CreateOrderRequest}
    (hfields : fieldIssues isDatetime p = [])
    (hdates : dateVal p.endDate ≤ dateVal p.startDate) :
    validateInput isDatetime dateVal p =
      .error (.validation ("Validation failed")
        (["endDate: End date must be after start date"])) := by
  unfold validateInput CreateOrderSchema.safeParse
  rw [hfields]
  simp [Int.not_lt.mpr hdates]

/-- When every one of the three send attempts fails, the notification stage
exhausts its retries: three calls, two backoff sleeps, and the wrapped
`MESSAGING_ERROR` as terminal outcome. -/
theorem sendStage_exhausts {sendOk : Nat → Bool}
    (h : ∀ k, 1 ≤ k → k ≤ 3 → sendOk k = false) :
    withRetry (MessagingService.sendOrderMessage sendOk) threeAttempts =
      ⟨.error (.processing ("Failed to send order message") ("MESSAGING_ERROR") 500),
       3, [1000, 2000]⟩ := by
  have h1 : sendOk 1 = false := h 1 (by omega) (by omega)
  have h2 : sendOk 2 = false := h 2 (by omega) (by omega)
  have h3 : sendOk 3 = false := h 3 (by omega) (by omega)
  unfold withRetry
  simp [retryGo, mergeRetryOptions, threeAttempts, DEFAULT_RETRY_OPTIONS,
    MessagingService.sendOrderMessage, h1, h2, h3]

/-- When every one of the three upload attempts fails, the persistence stage
exhausts its retries: three calls, two backoff sleeps, and the wrapped
`STORAGE_ERROR` as terminal outcome. -/
theorem storeStage_exhausts {uploadOk : Nat → Bool}
    (h : ∀ k, 1 ≤ k → k ≤ 3 → uploadOk k = false) :
    withRetry (StorageService.storeOrder uploadOk) threeAttempts =
      ⟨.error (.processing ("Failed to store order in storage") ("STORAGE_ERROR") 500),
       3, [1000, 2000]⟩ := by
  have h1 : uploadOk 1 = false := h 1 (by omega) (by omega)
  have h2 : uploadOk 2 = false := h 2 (by omega) (by omega)
  have h3 : uploadOk 3 = false := h 3 (by omega) (by omega)
  unfold withRetry
  simp [retryGo, mergeRetryOptions, threeAttempts, DEFAULT_RETRY_OPTIONS,
    StorageService.storeOrder, h1, h2, h3]

/-- The inner gateway block never calls `close()` itself: the only `close()`
call site is the `finally` in `processOrder`. -/
theorem runGatewayStages_closeCalls (env : Env) (order : Order) :
    (runGatewayStages env order).2.closeCalls = 0 := by
  simp only [runGatewayStages]
  rcases hi : (withRetry (StorageService.initializeContainer env.initOk) twoAttempts).result with e | u
  · simp [hi]
  · rcases hs : (withRetry (StorageService.storeOrder env.storeOk) threeAttempts).result with e | u2
    · simp [hi, hs]
    · rcases hm : (withRetry (MessagingService.sendOrderMessage env.sendOk) threeAttempts).result with e | u3
      · simp [hi, hs, hm]
      · simp [hi, hs, hm]

/-- On a request that parses, validates, and constructs both gateway clients
without a `close()` throw, `processOrder` is the inner gateway block followed
by the `finally` increment of the `close()` count. -/
theorem processOrder_reached (env : Env) (p : CreateOrderRequest)
    (hbody : env.reqBody = .ok (some p))
    (hfields : fieldIssues env.isDatetime p = [])
    (hdates : env.dateVal p.startDate < env.dateVal p.endDate)
    (hsc : env.storageCtorFail = none)
    (hmc : env.messagingCtorFail = none)
    (hcl : env.closeFail = none) :
    processOrder env =
      (let staged := runGatewayStages env
         (createOrder env.dateVal env.uuid env.now1 env.now2 p)
       let t : Trace :=
         ⟨staged.2.initCalls, staged.2.storeCalls, staged.2.sendCalls,
          staged.2.closeCalls + 1, staged.2.stored⟩
       match staged.1 with
       | .ok resp => ⟨resp, t⟩
       | .error e => ⟨handleError e, t⟩) := by
  have hv := @validateInput_ok env.isDatetime env.dateVal p hfields hdates
  simp only [processOrder, hbody, parseRequestBody, hv, hsc, hmc, hcl]

/-! ## Claim theorems -/

/-- Claim C2: for every operation and every retry policy whose merged
`maxAttempts` is `n ≥ 1`, if the operation fails on every attempt then
`withRetry` invokes it exactly `n` times and its terminal outcome is exactly
the outcome of the `n`-th attempt — the very error value the last attempt
raised, not a wrapped or synthesized one. -/
theorem withRetry_exhausts_and_rethrows_last {ε α : Type} [Inhabited ε]
    (op : Nat → Except ε α) (o : RetryOverrides)
    (hmax : 1 ≤ (mergeRetryOptions o).maxAttempts)
    (hfail : ∀ k, 1 ≤ k → k ≤ (mergeRetryOptions o).maxAttempts →
      exceptIsError (op k) = true) :
    (withRetry op o).calls = (mergeRetryOptions o).maxAttempts ∧
    (withRetry op o).result = op (mergeRetryOptions o).maxAttempts ∧
    exceptIsError (withRetry op o).result = true := by
  have hall := retryGo_allFail op (mergeRetryOptions o) (mergeRetryOptions o).maxAttempts 1 hmax
    (fun j hj1 hj2 => hfail j hj1 (by omega))
  have hres : (withRetry op o).result = op (mergeRetryOptions o).maxAttempts := by
    simp only [withRetry]
    rw [hall.1]
    congr 1
    omega
  refine ⟨?_, hres, ?_⟩
  · simp only [withRetry]
    exact hall.2
  · rw [hres]
    exact hfail _ hmax (Nat.le_refl _)

/-- Witness for claim C2 at `maxAttempts = 3` (the default policy) and an
operation failing on every attempt. -/
theorem withRetry_exhausts_and_rethrows_last_witness :
    (1 ≤ (mergeRetryOptions noOverrides).maxAttempts) ∧
    (withRetry alwaysFailOp noOverrides).calls = (mergeRetryOptions noOverrides).maxAttempts ∧
    (withRetry alwaysFailOp noOverrides).result =
      alwaysFailOp (mergeRetryOptions noOverrides).maxAttempts ∧
    exceptIsError (withRetry alwaysFailOp noOverrides).result = true := by
  have h := withRetry_exhausts_and_rethrows_last alwaysFailOp noOverrides
    (by decide) (fun k h1 h2 => rfl)
  exact ⟨by decide, h.1, h.2.1, h.2.2⟩

/-- Claim C3: whenever attempt `k` fails and is not the final attempt (all
attempts up to `k` having failed, so that attempt `k` actually runs), the
delay slept before attempt `k + 1` is
`min (baseDelay * backoffMultiplier ^ (k - 1)) maxDelay`; and the default
policy is `maxAttempts = 3`, `baseDelay = 1000`, `maxDelay = 10000`,
`backoffMultiplier = 2`. -/
theorem withRetry_backoff_delay {ε α : Type} [Inhabited ε]
    (op : Nat → Except ε α) (o : RetryOverrides) (k : Nat)
    (hk : 1 ≤ k) (hlt : k < (mergeRetryOptions o).maxAttempts)
    (hpre : ∀ j, 1 ≤ j → j ≤ k → exceptIsError (op j) = true) :
    (withRetry op o).delays[k - 1]? =
      some (min ((mergeRetryOptions o).baseDelay *
        (mergeRetryOptions o).backoffMultiplier ^ (k - 1))
        (mergeRetryOptions o).maxDelay) ∧
    mergeRetryOptions noOverrides = DEFAULT_RETRY_OPTIONS ∧
    DEFAULT_RETRY_OPTIONS = ⟨3, 1000, 10000, 2⟩ := by
  refine ⟨?_, rfl, rfl⟩
  simp only [withRetry]
  exact retryGo_delayAt op (mergeRetryOptions o) (mergeRetryOptions o).maxAttempts 1 k hk
    (by omega) hpre

/-- Witness for claim C3: under the default policy, with the first two
attempts failing, the sleep after attempt 1 is 1000 ms and the sleep after
attempt 2 is 2000 ms. -/
theorem withRetry_backoff_delay_witness :
    (withRetry alwaysFailOp noOverrides).delays[1 - 1]? =
      some (min ((mergeRetryOptions noOverrides).baseDelay *
        (mergeRetryOptions noOverrides).backoffMultiplier ^ (1 - 1))
        (mergeRetryOptions noOverrides).maxDelay) ∧
    (withRetry alwaysFailOp noOverrides).delays = [1000, 2000] := by
  have h := withRetry_backoff_delay alwaysFailOp noOverrides 1
    (by decide) (by decide) (fun j h1 h2 => rfl)
  exact ⟨h.1, by decide⟩

/-- Case split helper: every `Except` value is an error or a success. -/
theorem exceptCases {e a : Type} (x : Except e a) :
    (∃ err, x = .error err) ∨ (∃ v, x = .ok v) := by
  cases x with
  | error err => exact Or.inl ⟨err, rfl⟩
  | ok v => exact Or.inr ⟨v, rfl⟩

/-- Counterexample to claim C1 as stated: for a request whose payload fails
to parse, `MessagingService.close` is never invoked (zero calls, not one) —
the `try`/`finally` that owns the cleanup only wraps the gateway stages, and
the messaging client is not even constructed for parse or validation
failures. -/
theorem close_skipped_on_parse_failure :
    (processOrder malformedEnv).trace.closeCalls ≠ 1 := by
  decide

/-- Claim C1 (amended): `close()` is invoked exactly once if and only if the
request reaches construction of both gateway clients (parsing and validation
succeed and neither SDK constructor throws); on parse failures, validation
failures and constructor failures it is invoked zero times. -/
theorem close_called_once_iff_services_constructed (env : Env) :
    (processOrder env).trace.closeCalls = if reachesServices env then 1 else 0 := by
  rcases exceptCases (parseRequestBody env.reqBody) with ⟨e, hp⟩ | ⟨requestBody, hp⟩
  · simp [processOrder, reachesServices, hp]
  · rcases exceptCases (validateInput env.isDatetime env.dateVal requestBody) with
      ⟨e, hv⟩ | ⟨vi, hv⟩
    · simp [processOrder, reachesServices, hp, hv]
    · rcases Option.eq_none_or_eq_some env.storageCtorFail with hsc | ⟨m1, hsc⟩
      · rcases Option.eq_none_or_eq_some env.messagingCtorFail with hmc | ⟨m2, hmc⟩
        · have hz := runGatewayStages_closeCalls env
            (createOrder env.dateVal env.uuid env.now1 env.now2 vi)
          rcases Option.eq_none_or_eq_some env.closeFail with hcf | ⟨cm, hcf⟩
          · rcases exceptCases (runGatewayStages env
                (createOrder env.dateVal env.uuid env.now1 env.now2 vi)).1 with
                ⟨e, hres⟩ | ⟨resp, hres⟩
            · simp [processOrder, reachesServices, hp, hv, hsc, hmc, hcf, hres, hz]
            · simp [processOrder, reachesServices, hp, hv, hsc, hmc, hcf, hres, hz]
          · simp [processOrder, reachesServices, hp, hv, hsc, hmc, hcf, hz]
        · simp [processOrder, reachesServices, hp, hv, hsc, hmc]
      · simp [processOrder, reachesServices, hp, hv, hsc]

/-- Claim C4: a payload whose fields all parse and individually validate but
whose end date is not after its start date yields the 400 validation failure
whose single violation message ends in `End date must be after start date`
(the message is the suffix prefixed by the field path), with zero gateway
calls and, in fact, no cleanup call either, since the clients were never
constructed. -/
theorem date_order_violation_rejected_before_gateways (env : Env)
    (p : CreateOrderRequest)
    (hbody : env.reqBody = .ok (some p))
    (hfields : fieldIssues env.isDatetime p = [])
    (hdates : env.dateVal p.endDate ≤ env.dateVal p.startDate) :
    (processOrder env).response =
      ⟨400, false, "Validation failed",
       some ["endDate: End date must be after start date"], none, none⟩ ∧
    (processOrder env).trace = ⟨0, 0, 0, 0, []⟩ ∧
    "endDate: End date must be after start date" =
      ("endDate: ") ++ ("End date must be after start date") := by
  have hv := @validateInput_dateOrder env.isDatetime env.dateVal p hfields hdates
  refine ⟨?_, ?_, by decide⟩ <;>
    simp [processOrder, hbody, parseRequestBody, hv, handleError]

/-- Witness for claim C4 on a concrete backwards date range. -/
theorem date_order_violation_rejected_before_gateways_witness :
    backwardsEnv.reqBody = .ok (some backwardsPayload) ∧
    fieldIssues backwardsEnv.isDatetime backwardsPayload = [] ∧
    backwardsEnv.dateVal backwardsPayload.endDate ≤
      backwardsEnv.dateVal backwardsPayload.startDate ∧
    (processOrder backwardsEnv).response =
      ⟨400, false, "Validation failed",
       some ["endDate: End date must be after start date"], none, none⟩ ∧
    (processOrder backwardsEnv).trace = ⟨0, 0, 0, 0, []⟩ := by
  have h := date_order_violation_rejected_before_gateways backwardsEnv backwardsPayload
    rfl (by decide) (by decide)
  exact ⟨rfl, by decide, by decide, h.1, h.2.1⟩

/-- Counterexample to claim C5 as stated: with the storage connection
configuration missing (the blob SDK constructor throws a plain error), the
response carries no machine code at all — the thrown SDK error is not an
`OrderProcessingError`, so `handleError` falls through to the generic
`Internal server error` branch. -/
theorem configuration_failure_has_no_machine_code :
    (processOrder missingStorageEnv).response.code = none ∧
    (processOrder missingStorageEnv).response.status = 500 ∧
    (processOrder missingStorageEnv).response.message = ("Internal server error") := by
  refine ⟨?_, ?_, ?_⟩ <;> decide

/-- Claim C5 (amended): a missing or malformed connection configuration for
either gateway client makes the SDK constructor throw before any gateway
attempt, so the failure bypasses the retry engine entirely (zero gateway
attempts); the caller receives status 500 with the fixed generic message
`Internal server error` and no machine code (the error reaches the
unclassified branch of `handleError`), and the missing value never appears in
the response. -/
theorem configuration_failure_bypasses_retry (env : Env) (p : CreateOrderRequest)
    (hbody : env.reqBody = .ok (some p))
    (hfields : fieldIssues env.isDatetime p = [])
    (hdates : env.dateVal p.startDate < env.dateVal p.endDate)
    (hctor : env.storageCtorFail.isSome = true ∨ env.messagingCtorFail.isSome = true) :
    (processOrder env).response = ⟨500, false, "Internal server error", none, none, none⟩ ∧
    (processOrder env).trace = ⟨0, 0, 0, 0, []⟩ := by
  have hv := @validateInput_ok env.isDatetime env.dateVal p hfields hdates
  rcases Option.eq_none_or_eq_some env.storageCtorFail with hsc | ⟨m1, hsc⟩
  · rcases Option.eq_none_or_eq_some env.messagingCtorFail with hmc | ⟨m2, hmc⟩
    · rw [hsc] at hctor
      rw [hmc] at hctor
      simp at hctor
    · constructor <;>
        simp [processOrder, hbody, parseRequestBody, hv, hsc, hmc, handleError]
  · constructor <;>
      simp [processOrder, hbody, parseRequestBody, hv, hsc, handleError]

/-- Witness for claim C5 (amended) at a concrete environment with a missing
storage connection string. -/
theorem configuration_failure_bypasses_retry_witness :
    missingStorageEnv.storageCtorFail.isSome = true ∧
    (processOrder missingStorageEnv).response =
      ⟨500, false, "Internal server error", none, none, none⟩ ∧
    (processOrder missingStorageEnv).trace = ⟨0, 0, 0, 0, []⟩ := by
  have h := configuration_failure_bypasses_retry missingStorageEnv samplePayload
    rfl (by decide) (by decide) (Or.inl (by decide))
  exact ⟨by decide, h.1, h.2⟩

/-- Claim C6: when parsing, validation, client construction, container
initialization and the blob write all succeed but every Service Bus send
attempt fails, the caller receives the 500 `MESSAGING_ERROR` dependency
failure, the persisted record is still durably stored when the response is
returned (nothing rolls it back — the model has no delete operation), and
`close()` runs exactly once. -/
theorem notification_exhaustion_reports_messaging_error (env : Env)
    (p : CreateOrderRequest)
    (hbody : env.reqBody = .ok (some p))
    (hfields : fieldIssues env.isDatetime p = [])
    (hdates : env.dateVal p.startDate < env.dateVal p.endDate)
    (hsc : env.storageCtorFail = none)
    (hmc : env.messagingCtorFail = none)
    (hcl : env.closeFail = none)
    (hinit : (withRetry (StorageService.initializeContainer env.initOk) twoAttempts).result = .ok ())
    (hstore : (withRetry (StorageService.storeOrder env.storeOk) threeAttempts).result = .ok ())
    (hsend : ∀ k, 1 ≤ k → k ≤ 3 → env.sendOk k = false) :
    (processOrder env).response =
      ⟨500, false, "Failed to send order message", none, some "MESSAGING_ERROR", none⟩ ∧
    (processOrder env).trace.stored =
      [createOrder env.dateVal env.uuid env.now1 env.now2 p] ∧
    (processOrder env).trace.closeCalls = 1 := by
  rw [processOrder_reached env p hbody hfields hdates hsc hmc hcl]
  have hsr := sendStage_exhausts hsend
  simp only [runGatewayStages, hinit, hstore, hsr]
  refine ⟨?_, ?_, ?_⟩ <;> trivial

/-- Witness for claim C6 at a concrete environment whose Service Bus is
unavailable on every attempt. -/
theorem notification_exhaustion_reports_messaging_error_witness :
    (∀ k, 1 ≤ k → k ≤ 3 → sendFailEnv.sendOk k = false) ∧
    (processOrder sendFailEnv).response =
      ⟨500, false, "Failed to send order message", none, some "MESSAGING_ERROR", none⟩ ∧
    (processOrder sendFailEnv).trace.stored =
      [createOrder sendFailEnv.dateVal sendFailEnv.uuid sendFailEnv.now1 sendFailEnv.now2
        samplePayload] ∧
    (processOrder sendFailEnv).trace.closeCalls = 1 := by
  have h := notification_exhaustion_reports_messaging_error sendFailEnv samplePayload
    rfl (by decide) (by decide) rfl rfl rfl rfl rfl (fun k h1 h2 => rfl)
  exact ⟨fun k h1 h2 => rfl, h.1, h.2.1, h.2.2⟩

/-- Claim C7: on a valid request whose blob write fails on all 3 attempts
(container initialization having succeeded), the caller receives status 500
with the generic storage message and machine code `STORAGE_ERROR`, the
notification send is never attempted, and the cleanup still runs exactly
once. -/
theorem storage_exhaustion_reports_storage_error (env : Env)
    (p : CreateOrderRequest)
    (hbody : env.reqBody = .ok (some p))
    (hfields : fieldIssues env.isDatetime p = [])
    (hdates : env.dateVal p.startDate < env.dateVal p.endDate)
    (hsc : env.storageCtorFail = none)
    (hmc : env.messagingCtorFail = none)
    (hcl : env.closeFail = none)
    (hinit : (withRetry (StorageService.initializeContainer env.initOk) twoAttempts).result = .ok ())
    (hstore : ∀ k, 1 ≤ k → k ≤ 3 → env.storeOk k = false) :
    (processOrder env).response =
      ⟨500, false, "Failed to store order in storage", none, some "STORAGE_ERROR", none⟩ ∧
    (processOrder env).trace.storeCalls = 3 ∧
    (processOrder env).trace.sendCalls = 0 ∧
    (processOrder env).trace.closeCalls = 1 := by
  rw [processOrder_reached env p hbody hfields hdates hsc hmc hcl]
  have hsr := storeStage_exhausts hstore
  simp only [runGatewayStages, hinit, hsr]
  refine ⟨?_, ?_, ?_, ?_⟩ <;> trivial

/-- Witness for claim C7 at a concrete environment whose blob upload fails on
every attempt. -/
theorem storage_exhaustion_reports_storage_error_witness :
    (∀ k, 1 ≤ k → k ≤ 3 → storeFailEnv.storeOk k = false) ∧
    (processOrder storeFailEnv).response =
      ⟨500, false, "Failed to store order in storage", none, some "STORAGE_ERROR", none⟩ ∧
    (processOrder storeFailEnv).trace.storeCalls = 3 ∧
    (processOrder storeFailEnv).trace.sendCalls = 0 ∧
    (processOrder storeFailEnv).trace.closeCalls = 1 := by
  have h := storage_exhaustion_reports_storage_error storeFailEnv samplePayload
    rfl (by decide) (by decide) rfl rfl rfl rfl (fun k h1 h2 => rfl)
  exact ⟨fun k h1 h2 => rfl, h.1, h.2.1, h.2.2.1, h.2.2.2⟩

/-- Counterexample to claim C8 as stated: the response to an unparseable
payload does carry a violation list — `handleError` puts
`["Request body must be valid JSON"]` into the `errors` field — so the
`no field-violation list` part of the claim is false on the code. -/
theorem malformed_payload_response_carries_errors_list :
    (processOrder malformedEnv).response.errors ≠ none := by
  decide

/-- Claim C8 (amended): a payload that cannot be parsed as structured data
yields status 400 with the generic message `Invalid JSON in request body` and
an `errors` list containing the single generic entry
`Request body must be valid JSON` (no field-scoped violations), and zero
gateway calls are performed. -/
theorem malformed_payload_rejected_before_gateways (env : Env)
    (h : env.reqBody = .error ()) :
    (processOrder env).response =
      ⟨400, false, "Invalid JSON in request body",
       some ["Request body must be valid JSON"], none, none⟩ ∧
    (processOrder env).trace = ⟨0, 0, 0, 0, []⟩ := by
  constructor <;> simp [processOrder, h, parseRequestBody, handleError]

/-- Witness for claim C8 (amended) at a concrete unparseable request. -/
theorem malformed_payload_rejected_before_gateways_witness :
    malformedEnv.reqBody = .error () ∧
    (processOrder malformedEnv).response =
      ⟨400, false, "Invalid JSON in request body",
       some ["Request body must be valid JSON"], none, none⟩ ∧
    (processOrder malformedEnv).trace = ⟨0, 0, 0, 0, []⟩ := by
  have h := malformed_payload_rejected_before_gateways malformedEnv rfl
  exact ⟨rfl, h.1, h.2⟩

/-- Counterexample to claim C9 as stated: `createOrder` reads the clock twice
(`new Date()` once for `createdAt` and once for `updatedAt`), so in an
execution where the millisecond ticks between the two reads the emitted
record has `createdAt ≠ updatedAt`. -/
theorem created_record_timestamps_can_differ :
    (createOrder sampleDateVal ("uid-1") 0 1 samplePayload).createdAt ≠
      (createOrder sampleDateVal ("uid-1") 0 1 samplePayload).updatedAt := by
  decide

/-- Claim C9 (amended): for every valid payload the constructed record
carries exactly the freshly generated identifier (hence an identifier equal
to no input field whenever the generator output differs from every input
field), has status `PENDING`, and has `createdAt = updatedAt` whenever the
two consecutive clock reads during construction return the same instant. -/
theorem created_record_fresh_id_pending_timestamps
    (dv : String → Int) (uid : String) (now1 now2 : Int) (p : CreateOrderRequest)
    (hfresh : uid ∉ stringFields p) :
    (createOrder dv uid now1 now2 p).id = uid ∧
    (createOrder dv uid now1 now2 p).status = OrderStatus.PENDING ∧
    (createOrder dv uid now1 now2 p).id ∉ stringFields p ∧
    (now1 = now2 →
      (createOrder dv uid now1 now2 p).createdAt =
        (createOrder dv uid now1 now2 p).updatedAt) :=
  ⟨rfl, rfl, hfresh, fun h => h⟩

/-- Witness for claim C9 (amended) at a concrete fresh identifier and equal
clock reads. -/
theorem created_record_fresh_id_pending_timestamps_witness :
    (("fresh-uuid-0001" : String) ∉ stringFields samplePayload) ∧
    (createOrder sampleDateVal ("fresh-uuid-0001") 7 7 samplePayload).id =
      ("fresh-uuid-0001" : String) ∧
    (createOrder sampleDateVal ("fresh-uuid-0001") 7 7 samplePayload).status =
      OrderStatus.PENDING ∧
    (createOrder sampleDateVal ("fresh-uuid-0001") 7 7 samplePayload).id ∉
      stringFields samplePayload ∧
    (createOrder sampleDateVal ("fresh-uuid-0001") 7 7 samplePayload).createdAt =
      (createOrder sampleDateVal ("fresh-uuid-0001") 7 7 samplePayload).updatedAt := by
  have h := created_record_fresh_id_pending_timestamps sampleDateVal
    ("fresh-uuid-0001") 7 7 samplePayload (by decide)
  exact ⟨by decide, h.1, h.2.1, h.2.2.1, h.2.2.2 rfl⟩

/-- Claim C10 is about the `SKIP_SERVICE_BUS` bypass flag.  The source of
`processOrder` never consults it: even with the flag set, the Service Bus
client is constructed and the send is attempted — here exhausting its three
attempts and failing the request — where the repository's documentation and
integration test expect the notifying stage to be skipped and the request to
succeed. -/
theorem skip_service_bus_flag_is_ignored (env : Env)
    (p : CreateOrderRequest)
    (hbody : env.reqBody = .ok (some p))
    (hfields : fieldIssues env.isDatetime p = [])
    (hdates : env.dateVal p.startDate < env.dateVal p.endDate)
    (hsc : env.storageCtorFail = none)
    (hmc : env.messagingCtorFail = none)
    (hcl : env.closeFail = none)
    (hinit : (withRetry (StorageService.initializeContainer env.initOk) twoAttempts).result = .ok ())
    (hstore : (withRetry (StorageService.storeOrder env.storeOk) threeAttempts).result = .ok ())
    (hsend : ∀ k, 1 ≤ k → k ≤ 3 → env.sendOk k = false)
    (hskip : env.skipServiceBus = true) :
    (processOrder env).trace.sendCalls = 3 ∧
    (processOrder env).response.status = 500 ∧
    (processOrder env).response.success = false := by
  rw [processOrder_reached env p hbody hfields hdates hsc hmc hcl]
  have hsr := sendStage_exhausts hsend
  simp only [runGatewayStages, hinit, hstore, hsr]
  refine ⟨?_, ?_, ?_⟩ <;> trivial

/-- Witness for claim C10 at a concrete environment with the bypass flag set
and no Service Bus available. -/
theorem skip_service_bus_flag_is_ignored_witness :
    skipFlagEnv.skipServiceBus = true ∧
    (processOrder skipFlagEnv).trace.sendCalls = 3 ∧
    (processOrder skipFlagEnv).response.status = 500 ∧
    (processOrder skipFlagEnv).response.success = false := by
  have h := skip_service_bus_flag_is_ignored skipFlagEnv samplePayload
    rfl (by decide) (by decide) rfl rfl rfl rfl rfl (fun k h1 h2 => rfl) rfl
  exact ⟨rfl, h.1, h.2.1, h.2.2⟩
